import Mathlib

/-!
Verification of the restaurant recommender engine.

This file gives a shallow embedding of the candidate-filtering and ranking
engine of the repository:

* the Smart Score combiner and its component analyzers from
  src/py-app/app-claude.py (calculate_review_quality_score,
  calculate_momentum_score, calculate_smart_score, plus the name-matching
  fallback inside calculate_tfidf_scores);
* the search pipeline of src/deploy/app.py (load_data embedding validation,
  haversine_distance, search_restaurants with its price filter, distance
  filter, similarity assignment, two-key sort, truncation and review
  excerpt step, and the api_search boundary validation);
* cosine similarity as computed by sklearn cosine_similarity.

Numeric conventions: Python floats are modelled as exact numbers, with
rationals wherever the source only does field arithmetic and comparisons,
and with real numbers where the source uses transcendental functions
(np.log1p, math.sin, math.cos, math.asin, math.sqrt).  Pandas NaN cells
(a missing value in an optional column) are modelled as Option values with
none standing for NaN; fillna corresponds to Option.getD.  Review
timestamps are modelled in whole days, so that the .days truncation of a
timedelta is the exact integer difference.  The opaque sentence-embedding
model is abstracted: the deploy pipeline receives the per-id similarity
value and the coordinate-distance value as function parameters, because
the source computes them from an opaque encoder and from floating point
trigonometry; both are universally quantified in every theorem about the
pipeline, and the trigonometric distance itself is embedded separately as
haversine_distance over the reals.
-/

/-! ### Python string primitives

The source relies on Python string operations: the in operator
(substring test), str.lower, str.strip and str.split.  They are embedded
as structurally recursive functions on the underlying character list.
-/

/-- Does the second list start with the first one? -/
def seqStarts : List Char → List Char → Bool
  | [], _ => true
  | _ :: _, [] => false
  | a :: as, b :: bs => a == b && seqStarts as bs

/-- Does the pattern occur as a contiguous subsequence?  Models the Python
in operator on strings. -/
def seqContains (p : List Char) : List Char → Bool
  | [] => seqStarts p []
  | c :: rest => seqStarts p (c :: rest) || seqContains p rest

/-- Python substring test: p in s. -/
def strIn (p s : String) : Bool := seqContains p.data s.data

/-- Python str.lower. -/
def pyLower (s : String) : String := String.mk (s.data.map Char.toLower)

/-- Whitespace characters stripped and split on by Python. -/
def isSpaceChar (c : Char) : Bool := c == ' ' || c == '\t' || c == '\n' || c == '\r'

/-- Python str.strip. -/
def pyStrip (s : String) : String :=
  String.mk (((s.data.dropWhile isSpaceChar).reverse.dropWhile isSpaceChar).reverse)

/-- Helper for pySplit: walks the characters keeping the current word
reversed in the accumulator. -/
def pySplitAux : List Char → List Char → List String
  | [], acc => if acc.isEmpty then [] else [String.mk acc.reverse]
  | c :: rest, acc =>
    if isSpaceChar c then
      (if acc.isEmpty then pySplitAux rest [] else String.mk acc.reverse :: pySplitAux rest [])
    else pySplitAux rest (c :: acc)

/-- Python str.split with no argument: split on whitespace runs, dropping
empty words. -/
def pySplit (s : String) : List String := pySplitAux s.data []

/-- Python truthiness of an optional string cell: NaN (none) and the empty
string are falsy.  Models the pd.notna(x) and x idiom. -/
def strTruthy : Option String → Bool
  | some s => !(s == "")
  | none => false

/-- Mean of a list of rationals, as pandas Series.mean on a nonempty
column. -/
def qmean (l : List ℚ) : ℚ := l.sum / l.length

/-! ### Data model of the Shiny app (src/py-app/app-claude.py)

Rows of the reviews, photos and restaurants dataframes as loaded by
load_data.  Optional columns are Option valued; the amenity flags are
booleans after the astype(bool) conversion.  Review timestamps are whole
days.
-/

/-- A row of the reviews dataframe (load_data keeps only reviews with
non-null, non-empty text, but the scoring functions re-check optionality,
so text is kept optional). -/
structure Review where
  restaurant_id : String
  author_url : Option String
  profile_photo_url : Option String
  rating : ℚ
  text : Option String
  time : ℤ
deriving DecidableEq

/-- A row of the photos dataframe; only the restaurant id matters to the
scoring code. -/
structure Photo where
  restaurant_id : String
deriving DecidableEq

/-- A row of the restaurants dataframe of the Shiny app. -/
structure PRestaurant where
  id : String
  rating : Option ℚ
  price_level : Option ℚ
  user_ratings_total : Option ℕ
  website : Option String
  formatted_phone_number : Option String
  open_times : Option String
  serves_vegetarian : Bool
  dine_in : Bool
  takeout : Bool
  delivery : Bool
deriving DecidableEq

/-! ### Smart Score components (src/py-app/app-claude.py lines 140-321) -/

/-- calculate_review_quality_score: additive per-review authenticity score,
capped at 1.  The argument now is the current day (datetime.now()). -/
def calculate_review_quality_score (now : ℤ) (review : Review) : ℚ :=
  let photoBonus : ℚ := if strTruthy review.profile_photo_url then 1/4 else 0
  let contribBonus : ℚ :=
    if (match review.author_url with
        | some u => strIn "contrib" u
        | none => false) then 1/4 else 0
  let text_length : ℕ := match review.text with | some t => t.length | none => 0
  let lengthBonus : ℚ :=
    if 200 < text_length then 3/10
    else if 100 < text_length then 3/20
    else if 50 < text_length then 1/20
    else 0
  let days_ago : ℤ := now - review.time
  let recencyBonus : ℚ :=
    if days_ago < 30 then 1/5
    else if days_ago < 90 then 1/10
    else if days_ago < 180 then 1/20
    else 0
  min (photoBonus + contribBonus + lengthBonus + recencyBonus) 1

/-- Earliest review time of a list, as historical time.min() on a nonempty
selection. -/
def minTime : List Review → ℤ
  | [] => 0
  | rv :: rest => rest.foldl (fun m r => min m r.time) rv.time

/-- calculate_momentum_score: review velocity and rating trend.  Reviews
are sorted by time; the 90-day cutoff partitions them into recent and
historical. -/
def calculate_momentum_score (now : ℤ) (restaurant_id : String)
    (reviews_df : List Review) : ℚ :=
  let reviews := reviews_df.filter (fun rv => rv.restaurant_id == restaurant_id)
  if reviews.length < 10 then 1/2
  else
    let sorted := List.insertionSort (fun a b : Review => a.time ≤ b.time) reviews
    let cutoff_date : ℤ := now - 90
    let recent_reviews := sorted.filter (fun rv => decide (cutoff_date ≤ rv.time))
    if recent_reviews.length = 0 then 3/10
    else
      let recent_rate : ℚ := (recent_reviews.length : ℚ) / 90
      let historical_reviews := sorted.filter (fun rv => decide (rv.time < cutoff_date))
      let velocity_score : ℚ :=
        if 0 < historical_reviews.length then
          let days_historical : ℤ := cutoff_date - minTime historical_reviews
          let historical_rate : ℚ := (historical_reviews.length : ℚ) / ((max days_historical 1 : ℤ) : ℚ)
          if 0 < historical_rate then min ((recent_rate / historical_rate) / 2) 1
          else 1
        else 1
      let rating_trend : ℚ :=
        if 60 ≤ sorted.length then
          let recent_rating := qmean ((sorted.drop (sorted.length - 30)).map Review.rating)
          let previous_rating := qmean (((sorted.drop (sorted.length - 60)).take 30).map Review.rating)
          max 0 (min ((recent_rating - previous_rating) + 1/2) 1)
        else 1/2
      velocity_score * (7/10) + rating_trend * (3/10)

/-- Review authenticity component of calculate_smart_score: mean quality
of the reviews of a restaurant, 1/2 when it has none. -/
def authenticityScore (now : ℤ) (restaurant_id : String) (reviews_df : List Review) : ℚ :=
  let restaurant_reviews := reviews_df.filter (fun rv => rv.restaurant_id == restaurant_id)
  if 0 < restaurant_reviews.length then
    qmean (restaurant_reviews.map (calculate_review_quality_score now))
  else 1/2

/-- Number of amenity flags set, over the fixed four-column amenity set. -/
def amenityCount (restaurant : PRestaurant) : ℕ :=
  (if restaurant.serves_vegetarian then 1 else 0) + (if restaurant.dine_in then 1 else 0)
    + (if restaurant.takeout then 1 else 0) + (if restaurant.delivery then 1 else 0)

/-- Information completeness component of calculate_smart_score. -/
def completenessScore (restaurant : PRestaurant) (photos_df : List Photo) : ℚ :=
  let restaurant_photos := photos_df.filter (fun p => p.restaurant_id == restaurant.id)
  (if 0 < restaurant_photos.length then 3/10 else 0)
    + (if strTruthy restaurant.website then 1/4 else 0)
    + (if strTruthy restaurant.formatted_phone_number then 3/20 else 0)
    + (if strTruthy restaurant.open_times then 3/20 else 0)
    + ((amenityCount restaurant : ℚ) / 4) * (3/20)

/-- Rating normalized from the 0-5 scale to 0-1, 0 when missing. -/
def ratingNormalized (restaurant : PRestaurant) : ℚ :=
  match restaurant.rating with
  | some r => r / 5
  | none => 0

/-- Value component of calculate_smart_score: price-quality ratio. -/
def valueScore (restaurant : PRestaurant) : ℚ :=
  match restaurant.price_level with
  | some p =>
    if 0 < p then ratingNormalized restaurant * (1 - ((p - 1) / 3) * (3/4))
    else ratingNormalized restaurant
  | none => ratingNormalized restaurant

/-- Review count component: min(log1p(count) / log1p(1000), 1). -/
noncomputable def reviewCountNormalized (restaurant : PRestaurant) : ℝ :=
  min (Real.log (1 + (restaurant.user_ratings_total.getD 0 : ℝ)) / Real.log 1001) 1

/-- calculate_smart_score: the weighted 0-100 Smart Score combiner.  The
similarity_score argument is whatever relevance value the caller passes
(the TF-IDF or fallback similarity in search mode, 0 in browse mode). -/
noncomputable def calculate_smart_score (restaurant : PRestaurant)
    (reviews_df : List Review) (photos_df : List Photo) (now : ℤ)
    (similarity_score : ℝ) : ℝ :=
  let base_quality : ℝ :=
    (ratingNormalized restaurant : ℝ) * 0.7 + reviewCountNormalized restaurant * 0.3
  (base_quality * 0.30
      + (authenticityScore now restaurant.id reviews_df : ℝ) * 0.15
      + (calculate_momentum_score now restaurant.id reviews_df : ℝ) * 0.10
      + (completenessScore restaurant photos_df : ℝ) * 0.10
      + (valueScore restaurant : ℝ) * 0.10
      + similarity_score * 0.25) * 100

/-- The name-matching fallback of calculate_tfidf_scores (used when every
TF-IDF similarity is exactly zero).  The cuisine argument is the already
stringified cuisine cell, the empty string when the cell is NaN. -/
def name_score (query name cuisine : String) : ℚ :=
  let query_lower := pyLower query
  let nameL := pyLower name
  let cuisineL := pyLower cuisine
  let base : ℚ :=
    (if strIn query_lower nameL then 1/2 else 0)
      + (if strIn query_lower cuisineL then 3/10 else 0)
  let query_words := pySplit query_lower
  base + (query_words.map (fun w =>
    (if strIn w nameL then 1/5 else 0) + (if strIn w cuisineL then 1/10 else 0))).sum

/-! ### Data model of the deployed backend (src/deploy/app.py)

The restaurants dataframe columns that the search pipeline reads, a
review row for the excerpt step, and the scored row produced per
candidate.  In a scored row, the distance and similarity cells are Option
valued: none models the NaN that pandas puts where the coordinates were
missing or where the map over id_to_similarity found no entry.
-/

/-- A restaurant row as read by the deployed search pipeline. -/
structure DRestaurant where
  id : String
  price_level : Option ℚ
  lat : Option ℚ
  lng : Option ℚ
deriving DecidableEq

/-- A review row of the deployed backend (the SQL load keeps only non-null
non-empty text). -/
structure DReview where
  restaurant_id : String
  text : String
deriving DecidableEq

/-- A scored candidate row during the pipeline. -/
structure SRow where
  id : String
  price_level : Option ℚ
  lat : Option ℚ
  lng : Option ℚ
  distance : Option ℚ
  similarity : Option ℚ
  top_review : Option String
deriving DecidableEq

/-- Python truthiness of an optional float: None and 0 are falsy.  Models
the if user_lat and user_lng guard. -/
def truthy : Option ℚ → Bool
  | some v => !(v == 0)
  | none => false

/-- The price filter (lines 193-195): applied only when max_price is less
than 4; a missing price_level is read as 1 through fillna for the
comparison only. -/
def priceFilter (max_price : ℚ) (rs : List DRestaurant) : List DRestaurant :=
  if max_price < 4 then rs.filter (fun r => decide (r.price_level.getD 1 ≤ max_price))
  else rs

/-- A restaurant row widened to a scored row with no distance, similarity
or excerpt yet. -/
def toRow (r : DRestaurant) : SRow :=
  { id := r.id, price_level := r.price_level, lat := r.lat, lng := r.lng,
    distance := none, similarity := none, top_review := none }

/-- Per-row distance assignment (lines 199-203): haversine distance to the
user when both coordinates are present, NaN (none) otherwise.  distOf is
the haversine distance function, abstracted because the source computes it
in floating point trigonometry. -/
def rowWithDistance (distOf : ℚ → ℚ → ℚ → ℚ → ℚ) (user_lat user_lng : ℚ)
    (r : DRestaurant) : SRow :=
  { toRow r with
    distance :=
      match r.lat, r.lng with
      | some la, some ln => some (distOf user_lat user_lng la ln)
      | _, _ => none }

/-- The distance column assignment over the whole frame. -/
def assignDistance (distOf : ℚ → ℚ → ℚ → ℚ → ℚ) (user_lat user_lng : ℚ)
    (rs : List DRestaurant) : List SRow :=
  rs.map (rowWithDistance distOf user_lat user_lng)

/-- The radius filter (lines 204-206): applied only when radius is less
than 100; a NaN distance is read as the 999 sentinel through fillna. -/
def radiusFilter (radius : ℚ) (rows : List SRow) : List SRow :=
  if radius < 100 then rows.filter (fun row => decide (row.distance.getD 999 ≤ radius))
  else rows

/-- The filtering stage of search_restaurants: price filter, then, when
both user coordinates are truthy, the distance column assignment and the
radius filter. -/
def filterStage (distOf : ℚ → ℚ → ℚ → ℚ → ℚ) (user_lat user_lng : Option ℚ)
    (radius max_price : ℚ) (restaurants : List DRestaurant) : List SRow :=
  let filtered := priceFilter max_price restaurants
  if truthy user_lat && truthy user_lng then
    radiusFilter radius
      (assignDistance distOf (user_lat.getD 0) (user_lng.getD 0) filtered)
  else filtered.map toRow

/-- The similarity column assignment (lines 213-232): an id present in the
pre-computed store gets the cosine similarity of the query embedding with
its stored vector (abstracted as simOf), the rest get NaN from the map
over id_to_similarity. -/
def scoreStage (store_ids : List String) (simOf : String → ℚ)
    (rows : List SRow) : List SRow :=
  rows.map (fun row =>
    { row with
      similarity := if store_ids.contains row.id then some (simOf row.id) else none })

/-- Primary sort key order on the similarity column: descending, with NaN
placed last (pandas na_position default). -/
def simLE (a b : Option ℚ) : Bool :=
  match a, b with
  | some x, some y => decide (y ≤ x)
  | some _, none => true
  | none, some _ => false
  | none, none => true

/-- Secondary sort key order on the distance column: ascending, with NaN
placed last. -/
def distLE (a b : Option ℚ) : Bool :=
  match a, b with
  | some x, some y => decide (x ≤ y)
  | some _, none => true
  | none, some _ => false
  | none, none => true

/-- Row order for the single-key sort sort_values(similarity,
ascending=False). -/
def simOrder (a b : SRow) : Prop := simLE a.similarity b.similarity = true

/-- Row order for the two-key sort sort_values([similarity, distance],
ascending=[False, True]): similarity strictly first, distance breaking
similarity ties. -/
def rowOrder (a b : SRow) : Prop :=
  simLE a.similarity b.similarity = true ∧
    (simLE b.similarity a.similarity = true → distLE a.distance b.distance = true)

instance : DecidableRel simOrder := fun _ _ => instDecidableEqBool _ _

instance : DecidableRel rowOrder := fun a b => by unfold rowOrder; infer_instance

/-- Ascending row order on the similarity values, the key order of the
underlying ascending argsort inside the pandas single-key descending
sort. -/
def simAscOrder (a b : SRow) : Prop := simLE b.similarity a.similarity = true

instance : DecidableRel simAscOrder := fun _ _ => instDecidableEqBool _ _

/-- The single-key sort sort_values(similarity, ascending=False) as pandas
nargsort performs it: the NaN rows are segregated and appended last
(na_position default), and the descending order of the remaining rows is
produced from an ascending argsort of the indexer followed by a reversal,
so rows with equal similarity come out in reversed snapshot order.  (The
default quicksort kind gives no stability guarantee in any case; this
models the indexer reversal applied to a stable underlying argsort, the
most order-preserving behaviour the kind can exhibit.) -/
def sortSingleKey (rows : List SRow) : List SRow :=
  (List.insertionSort simAscOrder
      (rows.filter (fun row => row.similarity.isSome))).reverse
    ++ rows.filter (fun row => !row.similarity.isSome)

/-- The sorting stage: the two-key sort (stable pandas lexsort) when the
distance column exists for the request, the single-key reversed-argsort
otherwise. -/
def sortStage (hasDistance : Bool) (rows : List SRow) : List SRow :=
  if hasDistance then List.insertionSort rowOrder rows
  else sortSingleKey rows

/-- The review excerpt (lines 246-252): text of the first stored review of
the restaurant, truncated to 150 characters with an ellipsis marker. -/
def topReviewFor (reviews_df : List DReview) (restaurant_id : String) : Option String :=
  match reviews_df.filter (fun rv => rv.restaurant_id == restaurant_id) with
  | [] => none
  | rv :: _ =>
    some (if 150 < rv.text.length
      then String.mk (rv.text.data.take 150) ++ "..."
      else rv.text)

/-- The immutable data snapshot the deployed search runs over: the
filtered restaurants and reviews frames and the id list of the
pre-computed embedding store. -/
structure Snapshot where
  restaurants : List DRestaurant
  reviews : List DReview
  store_ids : List String

/-- The body of search_restaurants after the readiness checks: filters,
similarity assignment, two-key stable sort, truncation to 10 and excerpt
assignment.  The empty-frame guard mirrors the if not filtered.empty
branch of the source. -/
def searchCore (snap : Snapshot) (simOf : String → ℚ)
    (distOf : ℚ → ℚ → ℚ → ℚ → ℚ) (user_lat user_lng : Option ℚ)
    (radius max_price : ℚ) : List SRow :=
  let rows := filterStage distOf user_lat user_lng radius max_price snap.restaurants
  if rows.isEmpty then rows
  else
    ((sortStage (truthy user_lat && truthy user_lng)
          (scoreStage snap.store_ids simOf rows)).take 10).map
      (fun row => { row with top_review := topReviewFor snap.reviews row.id })

/-- The module-level mutable state of src/deploy/app.py after load_data:
each piece is none when its load step failed. -/
structure EngineState where
  restaurants_df : Option (List DRestaurant)
  reviews_df : Option (List DReview)
  model_loaded : Bool
  restaurant_embeddings : Option (List String)

/-- The embedding-store validation of load_data (lines 139-149): when the
id list length differs from the embedding count, the ValueError raised at
line 141 is caught and both globals are reset to None (the provider is not
ready); otherwise the store (kept here as its id list, the vectors being
abstracted into simOf) is installed. -/
def load_embeddings (embeddings : List (List ℚ)) (restaurant_ids : List String) :
    Option (List String) :=
  if restaurant_ids.length = embeddings.length then some restaurant_ids else none

/-- search_restaurants (lines 172-276): readiness checks in source order,
then the search body.  A raised exception is modelled as Except.error with
the message of the source. -/
def search_restaurants (st : EngineState) (simOf : String → ℚ)
    (distOf : ℚ → ℚ → ℚ → ℚ → ℚ) (query : String)
    (user_lat user_lng : Option ℚ) (radius max_price : ℚ) :
    Except String (List SRow) :=
  match st.restaurants_df, st.reviews_df with
  | some restaurants, some reviews =>
    if st.model_loaded then
      match st.restaurant_embeddings with
      | some store_ids =>
        Except.ok (searchCore ⟨restaurants, reviews, store_ids⟩ simOf distOf
          user_lat user_lng radius max_price)
      | none => Except.error "Embeddings not loaded. Check deployment files."
    else Except.error "Model not loaded"
  | _, _ => Except.error "Database not loaded"

/-- The HTTP boundary api_search (lines 298-338): strips the query and
rejects when it is empty, then delegates to search_restaurants.  The query
parameter is unused by the core beyond the opaque encoder folded into
simOf. -/
def api_search (st : EngineState) (simOf : String → ℚ)
    (distOf : ℚ → ℚ → ℚ → ℚ → ℚ) (body_query : String)
    (user_lat user_lng : Option ℚ) (radius max_price : ℚ) :
    Except String (List SRow) :=
  let query := pyStrip body_query
  if query == "" then Except.error "query parameter is required"
  else search_restaurants st simOf distOf query user_lat user_lng radius max_price

/-! ### Cosine similarity (sklearn) and the haversine distance -/

/-- Dot product of two equal-length vectors. -/
def dotList (a b : List ℝ) : ℝ := (List.zipWith (fun x y => x * y) a b).sum

/-- Cosine similarity of two vectors, as computed by sklearn
cosine_similarity on the query embedding and a stored candidate vector
(lines 211-223 of src/deploy/app.py). -/
noncomputable def cosineSimilarity (a b : List ℝ) : ℝ :=
  dotList a b / (Real.sqrt (dotList a a) * Real.sqrt (dotList b b))

/-- Modelled from the spec: clipping to the unit interval, the operation
section 4.4 prescribes for relevance before downstream use.  The source
has no corresponding code. -/
def clip01 (x : ℝ) : ℝ := max 0 (min 1 x)

/-- The similarity value that lines 223-229 of src/deploy/app.py store in
id_to_similarity for a candidate id: the raw cosine similarity of the
query embedding with the stored vector of that id, with no further
transformation. -/
noncomputable def deploySimilarity (query_emb : List ℝ) (vecOf : String → List ℝ)
    (restaurant_id : String) : ℝ :=
  cosineSimilarity query_emb (vecOf restaurant_id)

/-- math.radians. -/
noncomputable def radians (x : ℝ) : ℝ := x * (Real.pi / 180)

/-- haversine_distance (src/deploy/app.py lines 158-169 and
src/backend/app.py lines 35-43): great-circle distance in miles, Earth
radius 3959. -/
noncomputable def haversine_distance (lat1 lon1 lat2 lon2 : ℝ) : ℝ :=
  let rlat1 := radians lat1
  let rlon1 := radians lon1
  let rlat2 := radians lat2
  let rlon2 := radians lon2
  let dlat := rlat2 - rlat1
  let dlon := rlon2 - rlon1
  let a := Real.sin (dlat / 2) ^ 2
    + Real.cos rlat1 * Real.cos rlat2 * Real.sin (dlon / 2) ^ 2
  let c := 2 * Real.arcsin (Real.sqrt a)
  3959 * c

/-! ### Order properties of the sort keys -/

lemma simLE_refl (a : Option ℚ) : simLE a a = true := by
  rcases a with _ | x <;> simp [simLE]

lemma simLE_total (a b : Option ℚ) : simLE a b = true ∨ simLE b a = true := by
  rcases a with _ | x <;> rcases b with _ | y <;> simp [simLE]
  exact le_total y x

lemma distLE_total (a b : Option ℚ) : distLE a b = true ∨ distLE b a = true := by
  rcases a with _ | x <;> rcases b with _ | y <;> simp [distLE]
  exact le_total x y

lemma simLE_trans {a b c : Option ℚ} (h1 : simLE a b = true) (h2 : simLE b c = true) :
    simLE a c = true := by
  rcases a with _ | x <;> rcases b with _ | y <;> rcases c with _ | z <;>
    simp_all [simLE]
  exact le_trans h2 h1

lemma distLE_trans {a b c : Option ℚ} (h1 : distLE a b = true) (h2 : distLE b c = true) :
    distLE a c = true := by
  rcases a with _ | x <;> rcases b with _ | y <;> rcases c with _ | z <;>
    simp_all [distLE]
  exact le_trans h1 h2

lemma rowOrder_total (a b : SRow) : rowOrder a b ∨ rowOrder b a := by
  unfold rowOrder
  by_cases hab : simLE a.similarity b.similarity = true <;>
    by_cases hba : simLE b.similarity a.similarity = true
  · rcases distLE_total a.distance b.distance with hd | hd
    · exact Or.inl ⟨hab, fun _ => hd⟩
    · exact Or.inr ⟨hba, fun _ => hd⟩
  · exact Or.inl ⟨hab, fun h => absurd h hba⟩
  · exact Or.inr ⟨hba, fun h => absurd h hab⟩
  · rcases simLE_total a.similarity b.similarity with h | h
    · exact absurd h hab
    · exact absurd h hba

lemma rowOrder_trans {a b c : SRow} (h1 : rowOrder a b) (h2 : rowOrder b c) :
    rowOrder a c := by
  obtain ⟨hab, hdab⟩ := h1
  obtain ⟨hbc, hdbc⟩ := h2
  refine ⟨simLE_trans hab hbc, fun hca => ?_⟩
  have hba : simLE b.similarity a.similarity = true := simLE_trans hbc hca
  have hcb : simLE c.similarity b.similarity = true := simLE_trans hca hab
  exact distLE_trans (hdab hba) (hdbc hcb)

instance : IsTotal SRow rowOrder := ⟨rowOrder_total⟩

instance : IsTrans SRow rowOrder := ⟨fun _ _ _ => rowOrder_trans⟩

instance : IsTotal SRow simOrder := ⟨fun a b => simLE_total a.similarity b.similarity⟩

instance : IsTrans SRow simOrder := ⟨fun _ _ _ h1 h2 => simLE_trans h1 h2⟩

instance : IsTotal SRow simAscOrder := ⟨fun a b => simLE_total b.similarity a.similarity⟩

instance : IsTrans SRow simAscOrder := ⟨fun _ _ _ h1 h2 => simLE_trans h2 h1⟩

/-- Key equality for stability: two rows that agree on both sort keys. -/
def keyEq (a b : SRow) : Prop := a.similarity = b.similarity ∧ a.distance = b.distance

lemma keyEq_simOrder {a b : SRow} (h : keyEq a b) : simOrder a b := by
  unfold simOrder
  rw [h.1]
  exact simLE_refl b.similarity

lemma mem_scoreStage {store_ids : List String} {simOf : String → ℚ}
    {rows : List SRow} {row : SRow} (h : row ∈ scoreStage store_ids simOf rows) :
    ∃ row0 ∈ rows, row = { row0 with
      similarity := if store_ids.contains row0.id then some (simOf row0.id) else none } := by
  obtain ⟨row0, h0, rfl⟩ := List.mem_map.mp h
  exact ⟨row0, h0, rfl⟩

lemma filterStage_of_truthy {distOf : ℚ → ℚ → ℚ → ℚ → ℚ} {user_lat user_lng : Option ℚ}
    {radius max_price : ℚ} {restaurants : List DRestaurant}
    (ht : (truthy user_lat && truthy user_lng) = true) :
    filterStage distOf user_lat user_lng radius max_price restaurants
      = radiusFilter radius (assignDistance distOf (user_lat.getD 0) (user_lng.getD 0)
          (priceFilter max_price restaurants)) := by
  unfold filterStage
  rw [ht]
  rfl

lemma filterStage_of_falsy {distOf : ℚ → ℚ → ℚ → ℚ → ℚ} {user_lat user_lng : Option ℚ}
    {radius max_price : ℚ} {restaurants : List DRestaurant}
    (ht : (truthy user_lat && truthy user_lng) = false) :
    filterStage distOf user_lat user_lng radius max_price restaurants
      = (priceFilter max_price restaurants).map toRow := by
  unfold filterStage
  rw [ht]
  rfl

lemma mem_radiusFilter {radius : ℚ} {rows : List SRow} {row : SRow}
    (h : row ∈ radiusFilter radius rows) : row ∈ rows := by
  unfold radiusFilter at h
  split at h
  · exact (List.mem_filter.mp h).1
  · exact h

lemma mem_radiusFilter_dist {radius : ℚ} {rows : List SRow} {row : SRow}
    (hlt : radius < 100) (h : row ∈ radiusFilter radius rows) :
    row.distance.getD 999 ≤ radius := by
  unfold radiusFilter at h
  rw [if_pos hlt] at h
  simpa using (List.mem_filter.mp h).2

lemma mem_priceFilter {max_price : ℚ} {restaurants : List DRestaurant} {r : DRestaurant}
    (h : r ∈ priceFilter max_price restaurants) : r ∈ restaurants := by
  unfold priceFilter at h
  split at h
  · exact (List.mem_filter.mp h).1
  · exact h

lemma mem_priceFilter_price {max_price : ℚ} {restaurants : List DRestaurant}
    {r : DRestaurant} (hlt : max_price < 4) (h : r ∈ priceFilter max_price restaurants) :
    r.price_level.getD 1 ≤ max_price := by
  unfold priceFilter at h
  rw [if_pos hlt] at h
  simpa using (List.mem_filter.mp h).2

lemma mem_filterStage {distOf : ℚ → ℚ → ℚ → ℚ → ℚ} {user_lat user_lng : Option ℚ}
    {radius max_price : ℚ} {restaurants : List DRestaurant} {row : SRow}
    (h : row ∈ filterStage distOf user_lat user_lng radius max_price restaurants) :
    ∃ r ∈ priceFilter max_price restaurants,
      row.id = r.id ∧ row.price_level = r.price_level ∧ row.lat = r.lat ∧ row.lng = r.lng := by
  unfold filterStage at h
  by_cases ht : (truthy user_lat && truthy user_lng) = true
  · rw [ht] at h
    simp only [Bool.ite_eq_true_distrib] at h
    have h2 := @mem_radiusFilter radius _ _ (by simpa using h)
    obtain ⟨r, hr, rfl⟩ := List.mem_map.mp h2
    exact ⟨r, hr, rfl, rfl, rfl, rfl⟩
  · rw [Bool.not_eq_true] at ht
    rw [ht] at h
    simp only [Bool.false_eq_true, if_false] at h
    obtain ⟨r, hr, rfl⟩ := List.mem_map.mp h
    exact ⟨r, hr, rfl, rfl, rfl, rfl⟩

lemma mem_sortSingleKey {rows : List SRow} {row : SRow}
    (h : row ∈ sortSingleKey rows) : row ∈ rows := by
  rcases List.mem_append.mp h with h | h
  · have h1 := List.mem_reverse.mp h
    have h2 := (List.perm_insertionSort simAscOrder _).mem_iff.mp h1
    exact (List.mem_filter.mp h2).1
  · exact (List.mem_filter.mp h).1

lemma searchCore_mem {snap : Snapshot} {simOf : String → ℚ}
    {distOf : ℚ → ℚ → ℚ → ℚ → ℚ} {user_lat user_lng : Option ℚ}
    {radius max_price : ℚ} {row : SRow}
    (h : row ∈ searchCore snap simOf distOf user_lat user_lng radius max_price) :
    ∃ row0 ∈ filterStage distOf user_lat user_lng radius max_price snap.restaurants,
      row.id = row0.id ∧ row.price_level = row0.price_level
        ∧ row.distance = row0.distance ∧ row.lat = row0.lat ∧ row.lng = row0.lng := by
  simp only [searchCore] at h
  split at h
  · exact ⟨row, h, rfl, rfl, rfl, rfl, rfl⟩
  · obtain ⟨row1, h1, rfl⟩ := List.mem_map.mp h
    have h2 : row1 ∈ sortStage (truthy user_lat && truthy user_lng)
        (scoreStage snap.store_ids simOf
          (filterStage distOf user_lat user_lng radius max_price snap.restaurants)) :=
      List.take_subset 10 _ h1
    have h3 : row1 ∈ scoreStage snap.store_ids simOf
        (filterStage distOf user_lat user_lng radius max_price snap.restaurants) := by
      unfold sortStage at h2
      split at h2
      · exact (List.perm_insertionSort rowOrder _).mem_iff.mp h2
      · exact mem_sortSingleKey h2
    obtain ⟨row0, h0, rfl⟩ := mem_scoreStage h3
    exact ⟨row0, h0, rfl, rfl, rfl, rfl, rfl⟩

/-! ### Sorting stage facts -/

lemma bnot_isSome_eq_none {o : Option ℚ} (h : (!o.isSome) = true) : o = none := by
  rcases o with _ | v
  · rfl
  · simp at h

lemma sortSingleKey_pairwise (rows : List SRow) :
    (sortSingleKey rows).Pairwise simOrder := by
  unfold sortSingleKey
  rw [List.pairwise_append]
  refine ⟨?_, ?_, ?_⟩
  · rw [List.pairwise_reverse]
    exact (List.sorted_insertionSort simAscOrder _).imp (fun h => h)
  · refine List.pairwise_of_forall_mem_list ?_
    intro a ha b hb
    have ha3 : a.similarity = none := bnot_isSome_eq_none (List.mem_filter.mp ha).2
    have hb3 : b.similarity = none := bnot_isSome_eq_none (List.mem_filter.mp hb).2
    unfold simOrder
    rw [ha3, hb3]
    rfl
  · intro a ha b hb
    have ha1 := List.mem_reverse.mp ha
    have ha2 := (List.perm_insertionSort simAscOrder _).mem_iff.mp ha1
    have ha3 := (List.mem_filter.mp ha2).2
    have hb3 : b.similarity = none := bnot_isSome_eq_none (List.mem_filter.mp hb).2
    obtain ⟨v, hv⟩ := Option.isSome_iff_exists.mp ha3
    unfold simOrder
    rw [hb3, hv]
    rfl

lemma sortStage_pairwise_sim (hasDistance : Bool) (rows : List SRow) :
    (sortStage hasDistance rows).Pairwise simOrder := by
  cases hasDistance
  · exact sortSingleKey_pairwise rows
  · exact (List.sorted_insertionSort rowOrder rows).imp (fun h => h.1)

lemma simLE_none_left {b : Option ℚ} (h : simLE none b = true) : b = none := by
  rcases b with _ | y
  · rfl
  · simp [simLE] at h

lemma simOrder_none {a b : SRow} (h : simOrder a b) (ha : a.similarity = none) :
    b.similarity = none := by
  unfold simOrder at h
  rw [ha] at h
  exact simLE_none_left h

/-- Case analysis on the two branches of searchCore. -/
lemma searchCore_cases (snap : Snapshot) (simOf : String → ℚ)
    (distOf : ℚ → ℚ → ℚ → ℚ → ℚ) (user_lat user_lng : Option ℚ)
    (radius max_price : ℚ) (p : List SRow → Prop) (hnil : p [])
    (hmain : ∀ rows : List SRow,
      p ((List.take 10 (sortStage (truthy user_lat && truthy user_lng)
            (scoreStage snap.store_ids simOf rows))).map
          (fun row => { row with top_review := topReviewFor snap.reviews row.id }))) :
    p (searchCore snap simOf distOf user_lat user_lng radius max_price) := by
  simp only [searchCore]
  split
  · next h => rw [List.isEmpty_iff.mp h]; exact hnil
  · exact hmain _

/-- C4 (amended): a candidate whose id is absent from the pre-computed
store keeps an undefined (NaN) similarity through the sorting stage; it is
not replaced by a neutral default before sorting but is placed after every
row with a defined similarity. -/
theorem C4_nan_sorts_last (snap : Snapshot) (simOf : String → ℚ)
    (distOf : ℚ → ℚ → ℚ → ℚ → ℚ) (user_lat user_lng : Option ℚ)
    (radius max_price : ℚ) :
    (searchCore snap simOf distOf user_lat user_lng radius max_price).Pairwise
      (fun a b => a.similarity = none → b.similarity = none) := by
  refine searchCore_cases _ _ _ _ _ _ _
    (fun l => l.Pairwise (fun a b => a.similarity = none → b.similarity = none))
    List.Pairwise.nil (fun rows => ?_)
  refine List.pairwise_map.mpr (((List.Pairwise.sublist (List.take_sublist 10 _)
    (sortStage_pairwise_sim _ _)).imp ?_))
  intro a b h
  exact fun ha => simOrder_none h ha

/-- Snapshot for the C4 counterexample: two restaurants, only the second
one present in the embedding store. -/
def c4Snap : Snapshot :=
  ⟨[⟨"a", none, none, none⟩, ⟨"b", none, none, none⟩], [], ["b"]⟩

/-- C4 is false as stated: the candidate with id a is absent from the
store, so its similarity is NaN; the NaN is not normalized to a neutral
default before sorting — the row reaches the ranker and the returned list
with an undefined similarity, sorted after the defined one even though the
defined one is negative (a neutral default of 0 would have ranked the
missing candidate first). -/
theorem C4_nan_reaches_ranker :
    (searchCore c4Snap (fun _ => -1/2) (fun _ _ _ _ => 0) none none 100 4).map
        (fun row => (row.id, row.similarity))
      = [("b", some (-1/2)), ("a", none)] := by
  rfl

/-! ### Price filter, radius filter and falsy-coordinate behaviour -/

/-- Candidate A of the spec scenario: rated, cheap (price tier 1). -/
def c6A : DRestaurant := ⟨"A", some 1, none, none⟩

/-- Candidate B of the spec scenario: expensive (price tier 4). -/
def c6B : DRestaurant := ⟨"B", some 4, none, none⟩

/-- Snapshot for the max_price = 2 scenario. -/
def c6Snap : Snapshot := ⟨[c6A, c6B], [], ["A", "B"]⟩

/-- C6: max_price = 4 leaves the candidate list untouched; with
max_price below 4 every returned row satisfies the fillna(1) price bound,
so any candidate with a stored price_level above max_price is absent; and
in the spec scenario (max_price = 2, candidates A at tier 1 and B at tier
4) the result is exactly A, whatever similarity the encoder produces. -/
theorem C6_price_filter (restaurants : List DRestaurant) (snap : Snapshot)
    (simOf : String → ℚ) (distOf : ℚ → ℚ → ℚ → ℚ → ℚ)
    (user_lat user_lng : Option ℚ) (radius max_price : ℚ)
    (hlt : max_price < 4) :
    priceFilter 4 restaurants = restaurants
    ∧ (∀ row ∈ searchCore snap simOf distOf user_lat user_lng radius max_price,
        row.price_level.getD 1 ≤ max_price)
    ∧ (∀ (simOf2 : String → ℚ) (distOf2 : ℚ → ℚ → ℚ → ℚ → ℚ),
        (searchCore c6Snap simOf2 distOf2 none none 100 2).map SRow.id = ["A"]) := by
  refine ⟨?_, ?_, ?_⟩
  · unfold priceFilter
    rw [if_neg (lt_irrefl (4 : ℚ))]
  · intro row hrow
    obtain ⟨row0, h0, _, hprice, _, _, _⟩ := searchCore_mem hrow
    obtain ⟨r, hr, _, hprice2, _, _⟩ := mem_filterStage h0
    rw [hprice, hprice2]
    exact mem_priceFilter_price hlt hr
  · intro simOf2 distOf2
    rfl

/-- Snapshot for the C6 witness. -/
def c6WSnap : Snapshot := ⟨[c6A], [], ["A"]⟩

/-- Witness for C6 at max_price = 2. -/
theorem C6_price_filter_witness :
    priceFilter 4 [c6A] = [c6A]
    ∧ (∀ row ∈ searchCore c6WSnap (fun _ => 0) (fun _ _ _ _ => 0) none none 100 2,
        row.price_level.getD 1 ≤ 2)
    ∧ (∀ (simOf2 : String → ℚ) (distOf2 : ℚ → ℚ → ℚ → ℚ → ℚ),
        (searchCore c6Snap simOf2 distOf2 none none 100 2).map SRow.id = ["A"]) :=
  C6_price_filter [c6A] c6WSnap (fun _ => 0) (fun _ _ _ _ => 0) none none 100 2
    (by norm_num)

/-- C7: a radius of at least 100 makes the radius filter the identity (no
candidate is excluded on distance grounds); a candidate with a missing
coordinate is assigned a NaN distance; and when both user coordinates are
truthy and the radius is below 100, every returned row carries a defined
distance within the radius — the NaN distance reads as the 999 sentinel
through fillna, which the filter rejects, so missing-coordinate candidates
are absent. -/
theorem C7_radius_filter (snap : Snapshot) (simOf : String → ℚ)
    (distOf : ℚ → ℚ → ℚ → ℚ → ℚ) (user_lat user_lng : Option ℚ)
    (radius max_price : ℚ) (hr : radius < 100)
    (ht : (truthy user_lat && truthy user_lng) = true) :
    (∀ radius2 : ℚ, 100 ≤ radius2 → ∀ rows : List SRow, radiusFilter radius2 rows = rows)
    ∧ (∀ (dOf : ℚ → ℚ → ℚ → ℚ → ℚ) (ulat ulng : ℚ) (r : DRestaurant),
        r.lat = none ∨ r.lng = none → (rowWithDistance dOf ulat ulng r).distance = none)
    ∧ (∀ row ∈ searchCore snap simOf distOf user_lat user_lng radius max_price,
        row.distance ≠ none ∧ row.distance.getD 999 ≤ radius) := by
  refine ⟨?_, ?_, ?_⟩
  · intro radius2 h100 rows
    unfold radiusFilter
    rw [if_neg (not_lt.mpr h100)]
  · intro dOf ulat ulng r h
    unfold rowWithDistance
    rcases h with h | h
    · rw [h]
    · rw [h]
      cases r.lat <;> rfl
  · intro row hrow
    obtain ⟨row0, h0, _, _, hdist, _, _⟩ := searchCore_mem hrow
    rw [filterStage_of_truthy ht] at h0
    have hgd := mem_radiusFilter_dist hr h0
    constructor
    · rw [hdist]
      intro hnone
      rw [hnone] at hgd
      simp only [Option.getD_none] at hgd
      linarith
    · rw [hdist]
      exact hgd

/-- Snapshot for the C7 witness: one restaurant with coordinates. -/
def c7Snap : Snapshot := ⟨[⟨"A", none, some 1, some 1⟩], [], ["A"]⟩

/-- Witness for C7 at radius 10 with truthy user coordinates. -/
theorem C7_radius_filter_witness :
    (∀ radius2 : ℚ, 100 ≤ radius2 → ∀ rows : List SRow, radiusFilter radius2 rows = rows)
    ∧ (∀ (dOf : ℚ → ℚ → ℚ → ℚ → ℚ) (ulat ulng : ℚ) (r : DRestaurant),
        r.lat = none ∨ r.lng = none → (rowWithDistance dOf ulat ulng r).distance = none)
    ∧ (∀ row ∈ searchCore c7Snap (fun _ => 0) (fun _ _ _ _ => 5) (some 1) (some 1) 10 4,
        row.distance ≠ none ∧ row.distance.getD 999 ≤ 10) :=
  C7_radius_filter c7Snap (fun _ => 0) (fun _ _ _ _ => 5) (some 1) (some 1) 10 4
    (by norm_num) (by rfl)

/-- With a falsy coordinate pair the radius argument is never read. -/
lemma searchCore_falsy_radius {snap : Snapshot} {simOf : String → ℚ}
    {distOf : ℚ → ℚ → ℚ → ℚ → ℚ} {user_lat user_lng : Option ℚ} {max_price : ℚ}
    (hb : (truthy user_lat && truthy user_lng) = false) (radius radius2 : ℚ) :
    searchCore snap simOf distOf user_lat user_lng radius max_price
      = searchCore snap simOf distOf user_lat user_lng radius2 max_price := by
  simp only [searchCore, filterStage_of_falsy hb, hb]

/-- C10: when either user coordinate is absent or exactly 0 (falsy), no
distance is computed for any candidate (all returned rows have a NaN
distance cell) and the radius never filters anything: the result is the
same for every radius value, even below 100. -/
theorem C10_falsy_coords (snap : Snapshot) (simOf : String → ℚ)
    (distOf : ℚ → ℚ → ℚ → ℚ → ℚ) (user_lat user_lng : Option ℚ)
    (radius radius2 max_price : ℚ)
    (hfalsy : truthy user_lat = false ∨ truthy user_lng = false) :
    (∀ row ∈ searchCore snap simOf distOf user_lat user_lng radius max_price,
        row.distance = none)
    ∧ searchCore snap simOf distOf user_lat user_lng radius max_price
        = searchCore snap simOf distOf user_lat user_lng radius2 max_price := by
  have hb : (truthy user_lat && truthy user_lng) = false := by
    rcases hfalsy with h | h <;> simp [h]
  constructor
  · intro row hrow
    obtain ⟨row0, h0, _, _, hdist, _, _⟩ := searchCore_mem hrow
    rw [filterStage_of_falsy hb] at h0
    obtain ⟨r, _, rfl⟩ := List.mem_map.mp h0
    rw [hdist]
    rfl
  · exact searchCore_falsy_radius hb radius radius2

/-- Snapshot for the C10 witness. -/
def c10Snap : Snapshot := ⟨[⟨"A", none, some 2, some 2⟩], [], ["A"]⟩

/-- Witness for C10: user longitude exactly 0, radius 5 versus 50. -/
theorem C10_falsy_coords_witness :
    (∀ row ∈ searchCore c10Snap (fun _ => 0) (fun _ _ _ _ => 1) (some 3) (some 0) 5 4,
        row.distance = none)
    ∧ searchCore c10Snap (fun _ => 0) (fun _ _ _ _ => 1) (some 3) (some 0) 5 4
        = searchCore c10Snap (fun _ => 0) (fun _ _ _ _ => 1) (some 3) (some 0) 50 4 :=
  C10_falsy_coords c10Snap (fun _ => 0) (fun _ _ _ _ => 1) (some 3) (some 0) 5 50 4
    (Or.inr (by rfl))

/-! ### Readiness, validation and the embedding store (C5, C8) -/

/-- State of the deployed app with everything loaded and a one-candidate
snapshot, for the empty-query counterexample. -/
def c5State : EngineState :=
  ⟨some [⟨"A", none, none, none⟩], some [], true, some ["A"]⟩

/-- C5 is false on the code: with a fully loaded engine, the core
search_restaurants accepts the empty query and returns a normal result
list — it performs no query validation at all; only the api_search HTTP
boundary rejects empty queries. -/
theorem C5_core_accepts_empty :
    search_restaurants c5State (fun _ => 0) (fun _ _ _ _ => 0) "" none none 100 4
      = Except.ok [⟨"A", none, none, none, none, some 0, none⟩]
    ∧ api_search c5State (fun _ => 0) (fun _ _ _ _ => 0) "" none none 100 4
      = Except.error "query parameter is required" := by
  constructor
  · rfl
  · rfl

/-- C5 (amended): empty-query validation lives only at the HTTP boundary:
api_search rejects a whitespace-only body query with the validation error
and the engine state is untouched (the call is pure), while the core
search_restaurants runs the stripped (empty) query as an ordinary search
and returns Except.ok. -/
theorem C5_boundary_only_validation (st : EngineState) (simOf : String → ℚ)
    (distOf : ℚ → ℚ → ℚ → ℚ → ℚ) (body_query : String)
    (user_lat user_lng : Option ℚ) (radius max_price : ℚ)
    (restaurants : List DRestaurant) (reviews : List DReview) (store_ids : List String)
    (hq : pyStrip body_query = "")
    (h1 : st.restaurants_df = some restaurants) (h2 : st.reviews_df = some reviews)
    (h3 : st.model_loaded = true) (h4 : st.restaurant_embeddings = some store_ids) :
    api_search st simOf distOf body_query user_lat user_lng radius max_price
      = Except.error "query parameter is required"
    ∧ search_restaurants st simOf distOf (pyStrip body_query)
        user_lat user_lng radius max_price
      = Except.ok (searchCore ⟨restaurants, reviews, store_ids⟩ simOf distOf
          user_lat user_lng radius max_price) := by
  constructor
  · unfold api_search
    rw [hq]
    rfl
  · unfold search_restaurants
    rw [h1, h2, h3, h4]
    rfl

/-- Witness for C5 (amended) on the loaded c5State with a whitespace
query. -/
theorem C5_boundary_only_validation_witness :
    api_search c5State (fun _ => 0) (fun _ _ _ _ => 0) " " none none 100 4
      = Except.error "query parameter is required"
    ∧ search_restaurants c5State (fun _ => 0) (fun _ _ _ _ => 0) (pyStrip " ")
        none none 100 4
      = Except.ok (searchCore ⟨[⟨"A", none, none, none⟩], [], ["A"]⟩
          (fun _ => 0) (fun _ _ _ _ => 0) none none 100 4) :=
  C5_boundary_only_validation c5State (fun _ => 0) (fun _ _ _ _ => 0) " "
    none none 100 4 [⟨"A", none, none, none⟩] [] ["A"] (by decide) rfl rfl rfl rfl

/-- C8: when the embedding count disagrees with the id-list length, the
load step yields no store (the ValueError of line 141 is caught and the
globals are reset to None, so the provider is not ready), and every
subsequent search_restaurants call on a state without a store fails with
an error — none returns Except.ok. -/
theorem C8_embedding_mismatch (embeddings : List (List ℚ))
    (restaurant_ids : List String) (st : EngineState) (simOf : String → ℚ)
    (distOf : ℚ → ℚ → ℚ → ℚ → ℚ) (query : String)
    (user_lat user_lng : Option ℚ) (radius max_price : ℚ)
    (hmis : restaurant_ids.length ≠ embeddings.length)
    (hst : st.restaurant_embeddings = none) :
    load_embeddings embeddings restaurant_ids = none
    ∧ ∃ msg : String,
        search_restaurants st simOf distOf query user_lat user_lng radius max_price
          = Except.error msg := by
  constructor
  · unfold load_embeddings
    rw [if_neg hmis]
  · unfold search_restaurants
    rcases h1 : st.restaurants_df with _ | restaurants
    · exact ⟨_, rfl⟩
    · rcases h2 : st.reviews_df with _ | reviews
      · exact ⟨_, rfl⟩
      · rcases h3 : st.model_loaded
        · exact ⟨_, rfl⟩
        · rw [hst]
          exact ⟨_, rfl⟩

/-- State after a failed embedding load, for the C8 witness. -/
def c8State : EngineState := ⟨some [], some [], true, none⟩

/-- Witness for C8: one id against zero embedding vectors. -/
theorem C8_embedding_mismatch_witness :
    load_embeddings [] ["A"] = none
    ∧ ∃ msg : String,
        search_restaurants c8State (fun _ => 0) (fun _ _ _ _ => 0) "tacos"
          none none 100 4 = Except.error msg :=
  C8_embedding_mismatch [] ["A"] c8State (fun _ => 0) (fun _ _ _ _ => 0) "tacos"
    none none 100 4 (by decide) rfl

/-! ### Haversine distance (C9) -/

/-- C9: haversine_distance vanishes on identical points and is symmetric
in its two endpoints. -/
theorem C9_haversine_properties (lat lon lat1 lon1 lat2 lon2 : ℝ) :
    haversine_distance lat lon lat lon = 0
    ∧ haversine_distance lat1 lon1 lat2 lon2 = haversine_distance lat2 lon2 lat1 lon1 := by
  constructor
  · simp [haversine_distance, sub_self, zero_div, Real.sin_zero, Real.sqrt_zero,
      Real.arcsin_zero]
  · simp only [haversine_distance]
    have hs : ∀ x y : ℝ, Real.sin ((x - y) / 2) ^ 2 = Real.sin ((y - x) / 2) ^ 2 := by
      intro x y
      rw [show (x - y : ℝ) = -(y - x) by ring, neg_div, Real.sin_neg, neg_sq]
    rw [hs (radians lat2) (radians lat1), hs (radians lon2) (radians lon1),
      mul_comm (Real.cos (radians lat1)) (Real.cos (radians lat2))]

/-! ### Relevance clipping (C2) -/

/-- The all-optional-fields-missing restaurant. -/
def emptyRestaurant : PRestaurant :=
  ⟨"e", none, none, none, none, none, none, false, false, false, false⟩

/-- On the empty restaurant the Smart Score is an explicit affine function
of the relevance argument. -/
lemma smart_score_empty (s : ℝ) :
    calculate_smart_score emptyRestaurant [] [] 0 s = 12.5 + 25 * s := by
  have h1 : ratingNormalized emptyRestaurant = 0 := rfl
  have h2 : valueScore emptyRestaurant = 0 := rfl
  have h3 : authenticityScore 0 emptyRestaurant.id [] = 1/2 := rfl
  have h4 : calculate_momentum_score 0 emptyRestaurant.id [] = 1/2 := rfl
  have h5 : completenessScore emptyRestaurant [] = 0 := by
    norm_num [completenessScore, emptyRestaurant, amenityCount, strTruthy]
  have h6 : reviewCountNormalized emptyRestaurant = 0 := by
    simp [reviewCountNormalized, emptyRestaurant, Real.log_one]
  simp only [calculate_smart_score]
  rw [h1, h2, h3, h4, h5, h6]
  push_cast
  ring

lemma mem_filterStage_simNone {distOf : ℚ → ℚ → ℚ → ℚ → ℚ}
    {user_lat user_lng : Option ℚ} {radius max_price : ℚ}
    {restaurants : List DRestaurant} {row : SRow}
    (h : row ∈ filterStage distOf user_lat user_lng radius max_price restaurants) :
    row.similarity = none := by
  by_cases ht : (truthy user_lat && truthy user_lng) = true
  · rw [filterStage_of_truthy ht] at h
    have h2 := mem_radiusFilter h
    obtain ⟨r, _, rfl⟩ := List.mem_map.mp h2
    rfl
  · rw [Bool.not_eq_true] at ht
    rw [filterStage_of_falsy ht] at h
    obtain ⟨r, _, rfl⟩ := List.mem_map.mp h
    rfl

/-- Every returned row carries either a NaN similarity (id absent from the
store) or exactly the raw similarity value of the oracle for its id. -/
lemma searchCore_sim {snap : Snapshot} {simOf : String → ℚ}
    {distOf : ℚ → ℚ → ℚ → ℚ → ℚ} {user_lat user_lng : Option ℚ}
    {radius max_price : ℚ} {row : SRow}
    (h : row ∈ searchCore snap simOf distOf user_lat user_lng radius max_price) :
    row.similarity = none ∨ row.similarity = some (simOf row.id) := by
  simp only [searchCore] at h
  split at h
  · exact Or.inl (mem_filterStage_simNone h)
  · obtain ⟨row1, h1, rfl⟩ := List.mem_map.mp h
    have h2 : row1 ∈ sortStage (truthy user_lat && truthy user_lng)
        (scoreStage snap.store_ids simOf
          (filterStage distOf user_lat user_lng radius max_price snap.restaurants)) :=
      List.take_subset 10 _ h1
    have h3 : row1 ∈ scoreStage snap.store_ids simOf
        (filterStage distOf user_lat user_lng radius max_price snap.restaurants) := by
      unfold sortStage at h2
      split at h2
      · exact (List.perm_insertionSort rowOrder _).mem_iff.mp h2
      · exact mem_sortSingleKey h2
    obtain ⟨row0, _, rfl⟩ := mem_scoreStage h3
    by_cases hc : snap.store_ids.contains row0.id = true
    · right
      dsimp only
      rw [if_pos hc]
    · rw [Bool.not_eq_true] at hc
      left
      dsimp only
      rw [if_neg]
      rw [hc]
      exact Bool.false_ne_true

/-- C2 is false as stated: the query vector (1,0) against the stored
vector (-1,0) has cosine similarity -1; the value the pipeline stores and
passes downstream is that raw -1, not the clipped 0, and feeding it to the
score combiner drives the Smart Score negative — a negative cosine enters
the combiner as a negative contribution. -/
theorem C2_negative_cosine :
    deploySimilarity [1, 0] (fun _ => [-1, 0]) "b" = -1
    ∧ clip01 (-1) = 0
    ∧ calculate_smart_score emptyRestaurant [] [] 0
        (deploySimilarity [1, 0] (fun _ => [-1, 0]) "b") < 0 := by
  have hcos : deploySimilarity [1, 0] (fun _ => [-1, 0]) "b" = -1 := by
    unfold deploySimilarity cosineSimilarity dotList
    norm_num [Real.sqrt_one]
  refine ⟨hcos, by norm_num [clip01], ?_⟩
  rw [hcos, smart_score_empty]
  norm_num

/-- C2 (amended): no clipping is applied anywhere: the pipeline stores the
raw oracle (cosine) value for every id present in the store, and the Smart
Score combiner is affine in the relevance argument with slope 25 on the
0-100 scale, so a negative similarity propagates downstream as a negative
contribution. -/
theorem C2_relevance_unclipped (restaurant : PRestaurant) (reviews_df : List Review)
    (photos_df : List Photo) (now : ℤ) (s : ℝ) (snap : Snapshot)
    (simOf : String → ℚ) (distOf : ℚ → ℚ → ℚ → ℚ → ℚ)
    (user_lat user_lng : Option ℚ) (radius max_price : ℚ) :
    calculate_smart_score restaurant reviews_df photos_df now s
      = calculate_smart_score restaurant reviews_df photos_df now 0 + s * 25
    ∧ (∀ row ∈ searchCore snap simOf distOf user_lat user_lng radius max_price,
        ∀ v : ℚ, row.similarity = some v → v = simOf row.id) := by
  constructor
  · simp only [calculate_smart_score]
    ring
  · intro row hrow v hv
    rcases searchCore_sim hrow with h | h
    · rw [h] at hv
      cases hv
    · rw [h] at hv
      injection hv with h2
      exact h2.symm

/-! ### Smart Score bounds (C1) -/

lemma quality_mem (now : ℤ) (review : Review) :
    0 ≤ calculate_review_quality_score now review
      ∧ calculate_review_quality_score now review ≤ 1 := by
  simp only [calculate_review_quality_score]
  constructor
  · refine le_min ?_ (by norm_num)
    split_ifs <;> norm_num
  · exact min_le_right _ _

lemma qmean_mem {l : List ℚ} (hne : l ≠ []) (h : ∀ x ∈ l, 0 ≤ x ∧ x ≤ 1) :
    0 ≤ qmean l ∧ qmean l ≤ 1 := by
  have hlen : 0 < (l.length : ℚ) := by
    have h0 := List.length_pos.mpr hne
    exact_mod_cast h0
  unfold qmean
  constructor
  · exact div_nonneg (List.sum_nonneg fun x hx => (h x hx).1) hlen.le
  · rw [div_le_one hlen]
    simpa using List.sum_le_card_nsmul l 1 (fun x hx => (h x hx).2)

lemma authenticityScore_mem (now : ℤ) (restaurant_id : String)
    (reviews_df : List Review) :
    0 ≤ authenticityScore now restaurant_id reviews_df
      ∧ authenticityScore now restaurant_id reviews_df ≤ 1 := by
  simp only [authenticityScore]
  by_cases hpos :
      0 < (List.filter (fun rv => rv.restaurant_id == restaurant_id) reviews_df).length
  · rw [if_pos hpos]
    refine qmean_mem (List.ne_nil_of_length_pos ?_) ?_
    · rw [List.length_map]
      exact hpos
    · intro x hx
      obtain ⟨rv, _, rfl⟩ := List.mem_map.mp hx
      exact quality_mem now rv
  · rw [if_neg hpos]
    norm_num

lemma min_one_mem {x : ℚ} (hx : 0 ≤ x) : 0 ≤ min x 1 ∧ min x 1 ≤ 1 :=
  ⟨le_min hx (by norm_num), min_le_right _ _⟩

lemma clamp01_mem (x : ℚ) : 0 ≤ max 0 (min x 1) ∧ max 0 (min x 1) ≤ 1 :=
  ⟨le_max_left _ _, max_le (by norm_num) (min_le_right _ _)⟩

lemma momentum_combine_mem {v t : ℚ} (hv : 0 ≤ v ∧ v ≤ 1) (ht : 0 ≤ t ∧ t ≤ 1) :
    0 ≤ v * (7/10) + t * (3/10) ∧ v * (7/10) + t * (3/10) ≤ 1 := by
  constructor <;> nlinarith [hv.1, hv.2, ht.1, ht.2]

lemma calculate_momentum_score_mem (now : ℤ) (restaurant_id : String)
    (reviews_df : List Review) :
    0 ≤ calculate_momentum_score now restaurant_id reviews_df
      ∧ calculate_momentum_score now restaurant_id reviews_df ≤ 1 := by
  simp only [calculate_momentum_score]
  split
  · norm_num
  · split
    · norm_num
    · refine momentum_combine_mem ?_ ?_
      · split
        · split
          · next hrate =>
            refine min_one_mem ?_
            refine div_nonneg (div_nonneg ?_ hrate.le) (by norm_num)
            positivity
          · norm_num
        · norm_num
      · split
        · exact clamp01_mem _
        · norm_num

lemma completenessScore_mem (restaurant : PRestaurant) (photos_df : List Photo) :
    0 ≤ completenessScore restaurant photos_df
      ∧ completenessScore restaurant photos_df ≤ 1 := by
  have ha0 : (0:ℚ) ≤ (amenityCount restaurant : ℚ) := by positivity
  have ha4 : (amenityCount restaurant : ℚ) ≤ 4 := by
    have h4 : amenityCount restaurant ≤ 4 := by
      unfold amenityCount
      split_ifs <;> norm_num
    exact_mod_cast h4
  simp only [completenessScore]
  constructor <;> split_ifs <;> linarith

lemma ratingNormalized_mem {restaurant : PRestaurant}
    (hrating : ∀ x : ℚ, restaurant.rating = some x → 0 ≤ x ∧ x ≤ 5) :
    0 ≤ ratingNormalized restaurant ∧ ratingNormalized restaurant ≤ 1 := by
  unfold ratingNormalized
  rcases hx : restaurant.rating with _ | x
  · norm_num
  · obtain ⟨h0, h5⟩ := hrating x hx
    constructor
    · exact div_nonneg h0 (by norm_num)
    · show x / 5 ≤ 1
      linarith

lemma valueScore_mem {restaurant : PRestaurant}
    (hrating : ∀ x : ℚ, restaurant.rating = some x → 0 ≤ x ∧ x ≤ 5)
    (hprice : ∀ p : ℚ, restaurant.price_level = some p →
      p = 1 ∨ p = 2 ∨ p = 3 ∨ p = 4) :
    0 ≤ valueScore restaurant ∧ valueScore restaurant ≤ 1 := by
  obtain ⟨hr0, hr1⟩ := ratingNormalized_mem hrating
  unfold valueScore
  rcases hp : restaurant.price_level with _ | p
  · exact ⟨hr0, hr1⟩
  · rcases hprice p hp with rfl | rfl | rfl | rfl <;>
      (dsimp only; rw [if_pos (by norm_num)]; constructor <;> nlinarith [hr0, hr1])

lemma reviewCountNormalized_mem (restaurant : PRestaurant) :
    0 ≤ reviewCountNormalized restaurant ∧ reviewCountNormalized restaurant ≤ 1 := by
  unfold reviewCountNormalized
  constructor
  · refine le_min ?_ (by norm_num)
    apply div_nonneg
    · apply Real.log_nonneg
      have hc : (0:ℝ) ≤ (restaurant.user_ratings_total.getD 0 : ℝ) := by positivity
      linarith
    · exact (Real.log_pos (by norm_num)).le
  · exact min_le_right _ _

/-- C1 (amended): for every valid restaurant (rating in 0-5 when present,
price tier in 1-4 when present) and every relevance argument inside the
unit interval, the Smart Score lies in 0-100.  The unit-interval premise
is necessary: the name-matching fallback can return relevance values above
1 (see the counterexample), and those push the score past 100. -/
theorem C1_smart_score_range (restaurant : PRestaurant) (reviews_df : List Review)
    (photos_df : List Photo) (now : ℤ) (similarity_score : ℝ)
    (hrating : ∀ x : ℚ, restaurant.rating = some x → 0 ≤ x ∧ x ≤ 5)
    (hprice : ∀ p : ℚ, restaurant.price_level = some p →
      p = 1 ∨ p = 2 ∨ p = 3 ∨ p = 4)
    (hs0 : 0 ≤ similarity_score) (hs1 : similarity_score ≤ 1) :
    0 ≤ calculate_smart_score restaurant reviews_df photos_df now similarity_score
    ∧ calculate_smart_score restaurant reviews_df photos_df now similarity_score
        ≤ 100 := by
  obtain ⟨hr0, hr1⟩ := ratingNormalized_mem hrating
  obtain ⟨hv0, hv1⟩ := valueScore_mem hrating hprice
  obtain ⟨hn0, hn1⟩ := reviewCountNormalized_mem restaurant
  obtain ⟨hA0, hA1⟩ := authenticityScore_mem now restaurant.id reviews_df
  obtain ⟨hM0, hM1⟩ := calculate_momentum_score_mem now restaurant.id reviews_df
  obtain ⟨hC0, hC1⟩ := completenessScore_mem restaurant photos_df
  have hr0' : (0:ℝ) ≤ (ratingNormalized restaurant : ℝ) := by exact_mod_cast hr0
  have hr1' : ((ratingNormalized restaurant : ℚ) : ℝ) ≤ 1 := by exact_mod_cast hr1
  have hv0' : (0:ℝ) ≤ (valueScore restaurant : ℝ) := by exact_mod_cast hv0
  have hv1' : ((valueScore restaurant : ℚ) : ℝ) ≤ 1 := by exact_mod_cast hv1
  have hA0' : (0:ℝ) ≤ (authenticityScore now restaurant.id reviews_df : ℝ) := by
    exact_mod_cast hA0
  have hA1' : ((authenticityScore now restaurant.id reviews_df : ℚ) : ℝ) ≤ 1 := by
    exact_mod_cast hA1
  have hM0' : (0:ℝ) ≤ (calculate_momentum_score now restaurant.id reviews_df : ℝ) := by
    exact_mod_cast hM0
  have hM1' : ((calculate_momentum_score now restaurant.id reviews_df : ℚ) : ℝ) ≤ 1 := by
    exact_mod_cast hM1
  have hC0' : (0:ℝ) ≤ (completenessScore restaurant photos_df : ℝ) := by
    exact_mod_cast hC0
  have hC1' : ((completenessScore restaurant photos_df : ℚ) : ℝ) ≤ 1 := by
    exact_mod_cast hC1
  simp only [calculate_smart_score]
  constructor <;> nlinarith [hr0', hr1', hv0', hv1', hn0, hn1, hA0', hA1', hM0', hM1',
    hC0', hC1', hs0, hs1]

/-- Witness for C1 (amended): the all-optional-fields-missing restaurant
with relevance one half. -/
theorem C1_smart_score_range_witness :
    0 ≤ calculate_smart_score emptyRestaurant [] [] 0 (1/2)
    ∧ calculate_smart_score emptyRestaurant [] [] 0 (1/2) ≤ 100 :=
  C1_smart_score_range emptyRestaurant [] [] 0 (1/2)
    (fun x hx => Option.noConfusion hx) (fun p hp => Option.noConfusion hp)
    (by norm_num) (by norm_num)

/-- A restaurant with every quality signal at its maximum. -/
def bigRestaurant : PRestaurant :=
  ⟨"big", some 5, some 1, some 1000, some "https://big.example", some "5125550100",
    some "9-5", true, true, true, true⟩

/-- One photo row for the maximal restaurant. -/
def bigPhotos : List Photo := [⟨"big"⟩]

/-- A query whose words hit the fallback name matcher six times. -/
def c1Query : String := "tac tac tac tac tac tac"

/-- C1 is false as stated: the name-matching fallback of
calculate_tfidf_scores scores the query tac repeated six times against a
restaurant named taco with cuisine taco as 6 times (0.2 + 0.1) = 1.8, a
relevance above 1, and feeding that relevance to calculate_smart_score on
a maximal restaurant yields 107.5, outside the stated 0-100 interval. -/
theorem C1_fallback_overflow :
    100 < calculate_smart_score bigRestaurant [] bigPhotos 0
      ((name_score c1Query "taco" "taco" : ℚ) : ℝ) := by
  have hw : pySplit (pyLower c1Query) = ["tac", "tac", "tac", "tac", "tac", "tac"] := by
    decide
  have hq : strIn (pyLower c1Query) (pyLower "taco") = false := by decide
  have ht : strIn "tac" (pyLower "taco") = true := by decide
  have hn : name_score c1Query "taco" "taco" = 9/5 := by
    simp only [name_score, hw, hq, ht, Bool.false_eq_true, if_false, if_true,
      List.map_cons, List.map_nil, List.sum_cons, List.sum_nil]
    norm_num
  have h1 : ratingNormalized bigRestaurant = 1 := by
    norm_num [ratingNormalized, bigRestaurant]
  have h2 : valueScore bigRestaurant = 1 := by
    norm_num [valueScore, bigRestaurant, ratingNormalized]
  have h3 : authenticityScore 0 bigRestaurant.id [] = 1/2 := rfl
  have h4 : calculate_momentum_score 0 bigRestaurant.id [] = 1/2 := rfl
  have hphotos : 0 < (bigPhotos.filter
      (fun p => p.restaurant_id == bigRestaurant.id)).length := by decide
  have hwebsite : strTruthy bigRestaurant.website = true := by decide
  have hphone : strTruthy bigRestaurant.formatted_phone_number = true := by decide
  have hhours : strTruthy bigRestaurant.open_times = true := by decide
  have hamen : amenityCount bigRestaurant = 4 := by decide
  have h5 : completenessScore bigRestaurant bigPhotos = 1 := by
    simp only [completenessScore, if_pos hphotos, if_pos hwebsite, if_pos hphone,
      if_pos hhours, hamen]
    norm_num
  have h6 : reviewCountNormalized bigRestaurant = 1 := by
    have hlog : Real.log 1001 ≠ 0 := ne_of_gt (Real.log_pos (by norm_num))
    simp only [reviewCountNormalized, bigRestaurant, Option.getD_some]
    rw [show ((1:ℝ) + (1000:ℕ)) = 1001 by norm_num, div_self hlog]
    exact min_self 1
  rw [hn]
  simp only [calculate_smart_score]
  rw [h1, h2, h3, h4, h5, h6]
  push_cast
  norm_num
